import Mathlib

/-! # velero-backup: the `backup` command (`src/cmd/backup.go`)

A shallow embedding of `BackupOptions`, `newBackupCmd`, `Complete`, `Validate`,
`Run` and `BuildBackup`.

Conventions of the embedding
* a Go pointer `*T` is `Option T` (`nil` is `none`);
* a Go slice is `Slice α`: either `nil` or a list of elements;
* a Go `map[string]string` is `Option GoMap`: `nil`, or an association list with
  pairwise distinct keys (`AList`), read through `AList.lookup`;
* a Go `error` is `Option GoError` (`nil` is `none`);
* `time.Duration` is its number of nanoseconds;
* remote calls and output are recorded, in order, as a list of `Event`s.

The calls into libraries (`velero/pkg/builder`, `velero/pkg/cmd`,
`velero/pkg/cmd/util/flag`, `ergoapi/util/ptr`) are embedded next to the code that
uses them, each with the library name it stands for.
-/

namespace VeleroBackup

/-! ## Go values -/

/-- Go slice: `nil`, or a (possibly zero-length) sequence of elements. -/
inductive Slice (α : Type) where
  | nil : Slice α
  | mk (elems : List α) : Slice α
deriving DecidableEq, Repr

/-- Elements visited by `for _, x := range s`; none for a `nil` slice. -/
def Slice.elems {α : Type} : Slice α → List α
  | Slice.nil => []
  | Slice.mk l => l

/-- Contents of a non-nil Go `map[string]string`. -/
abbrev GoMap := AList (fun _ : String => String)

/-- Go `m[k]` with the comma-ok form, on a possibly nil map. -/
def mapGet (m : Option GoMap) (k : String) : Option String :=
  match m with
  | none => none
  | some a => a.lookup k

/-- Go `error` values: the sentinel `context.Canceled`, or any other error,
identified by its message. -/
inductive GoError where
  | contextCanceled : GoError
  | other (msg : String) : GoError
deriving DecidableEq, Repr

/-- Nanoseconds, as `time.Duration`. -/
abbrev Duration := Int

/-- Constant `time.Hour`. -/
def Hour : Duration := 3600 * 1000000000

/-- Constant `DefaultBackupTTL` (backup.go line 23). -/
def DefaultBackupTTL : Duration := 30 * 24 * Hour

/-! ## API objects (`metav1`, `velerov1api`) -/

/-- Type `metav1.LabelSelectorRequirement`. -/
structure LabelSelectorRequirement where
  Key : String
  Operator : String
  Values : Slice String
deriving DecidableEq, Repr

/-- Type `metav1.LabelSelector`. -/
structure LabelSelector where
  MatchLabels : Option GoMap
  MatchExpressions : Slice LabelSelectorRequirement
deriving DecidableEq

/-- Type `metav1.TypeMeta`. -/
structure TypeMeta where
  Kind : String
  APIVersion : String
deriving DecidableEq, Repr

/-- The fields of `metav1.ObjectMeta` that the command writes. -/
structure ObjectMeta where
  Name : String
  Namespace : String
  Labels : Option GoMap
deriving DecidableEq

/-- The fields of `velerov1api.BackupSpec` that the builder can write, together
with `OrderedResources`. -/
structure BackupSpec where
  IncludedNamespaces : Slice String
  ExcludedNamespaces : Slice String
  IncludedResources : Slice String
  ExcludedResources : Slice String
  LabelSelector : Option LabelSelector
  SnapshotVolumes : Option Bool
  TTL : Duration
  IncludeClusterResources : Option Bool
  StorageLocation : String
  VolumeSnapshotLocations : Slice String
  DefaultVolumesToRestic : Option Bool
  OrderedResources : Option GoMap
deriving DecidableEq

/-- Type `velerov1api.Backup` (the request object). -/
structure Backup where
  TypeMeta : TypeMeta
  ObjectMeta : ObjectMeta
  Spec : BackupSpec
deriving DecidableEq

/-! ## Flag value types (`velero/pkg/cmd/util/flag`) -/

/-- Type `flag.OptionalBool`: `Value` is a `*bool`. -/
structure OptionalBool where
  Value : Option Bool
deriving DecidableEq, Repr

/-- Library `flag.NewOptionalBool`: wraps the given pointer. -/
def NewOptionalBool (defaultValue : Option Bool) : OptionalBool :=
  { Value := defaultValue }

/-- Library `ptr.BoolPtr`: a pointer to the given boolean. -/
def BoolPtr (b : Bool) : Option Bool := some b

/-- Type `flag.StringArray`, a `[]string`. -/
abbrev StringArray := Slice String

/-- Library `flag.NewStringArray`: the variadic arguments as the array. -/
def NewStringArray (initial : List String) : StringArray := Slice.mk initial

/-- Type `flag.Map`. -/
structure FlagMap where
  data : Option GoMap
  entryDelimiter : String
  keyValueDelimiter : String
deriving DecidableEq

/-- Library `flag.NewMap`: an empty, non-nil map with the delimiters "," and "=". -/
def NewMap : FlagMap :=
  { data := some ∅, entryDelimiter := ",", keyValueDelimiter := "=" }

/-- Library `flag.Map.Data`. -/
def FlagMap.Data (m : FlagMap) : Option GoMap := m.data

/-- Type `flag.LabelSelector`: wraps a `*metav1.LabelSelector`. -/
structure FlagLabelSelector where
  LabelSelector : Option LabelSelector
deriving DecidableEq

/-! ## The remote service and the event log -/

/-- The two operations of `veleroclient.Interface` that the command uses. Each
returns the `error` of the call; the object returned alongside is discarded by
the callers. -/
structure Client where
  getVolumeSnapshotLocation : String → String → Option GoError
  createBackup : String → Backup → Option GoError

/-- Observable actions of the command, in the order they happen. -/
inductive Event where
  | getVolumeSnapshotLocation (ns name : String) : Event
  | printWithFormat (b : Backup) : Event
  | createBackup (ns : String) (b : Backup) : Event
  | stdoutPrintf (format : String) (args : List String) : Event
  | stderrPrintf (format : String) (err : GoError) : Event
  | osExit (code : Int) : Event
deriving DecidableEq

/-- How a Go function call ends: it returns its `error`, or it panics. -/
inductive Outcome where
  | returned (err : Option GoError) : Outcome
  | panicked : Outcome
deriving DecidableEq, Repr

/-! ## `BackupOptions` and `newBackupCmd` -/

/-- Type `BackupOptions` (backup.go lines 25-43). -/
structure BackupOptions where
  Name : String
  TTL : Duration
  SnapshotVolumes : OptionalBool
  DefaultVolumesToRestic : OptionalBool
  IncludeNamespaces : StringArray
  ExcludeNamespaces : StringArray
  IncludeResources : StringArray
  ExcludeResources : StringArray
  Labels : FlagMap
  Selector : FlagLabelSelector
  IncludeClusterResources : OptionalBool
  StorageLocation : String
  SnapshotLocations : Slice String
  FromSchedule : String
  OrderedResources : String
  client : Option Client

/-- The three match-labels of the selector that `newBackupCmd` installs
(backup.go lines 54-58). -/
def defaultMatchLabels : GoMap :=
  ((∅ : GoMap).insert "app.easycorp.work/managed-by" "cce"
    |>.insert "k8s.easycorp.work/appid" "e2a0718e-3311-41a2-ae4d-9be03c51af1d"
    |>.insert "k8s.easycorp.work/name" "go")

/-- The `opt` value that `newBackupCmd` builds (backup.go lines 47-63). `now` is
the result of `ztime.NowUnixString()`. Fields not listed in the composite
literal have their zero values. -/
def newBackupCmdOpt (now : String) : BackupOptions :=
  { Name := now
    TTL := DefaultBackupTTL
    IncludeNamespaces := NewStringArray ["*"]
    Labels := NewMap
    Selector := { LabelSelector := some { MatchLabels := some defaultMatchLabels
                                          MatchExpressions := Slice.nil } }
    SnapshotVolumes := NewOptionalBool (BoolPtr true)
    IncludeClusterResources := NewOptionalBool (BoolPtr true)
    DefaultVolumesToRestic := { Value := none }
    ExcludeNamespaces := Slice.nil
    IncludeResources := Slice.nil
    ExcludeResources := Slice.nil
    StorageLocation := ""
    SnapshotLocations := Slice.nil
    FromSchedule := ""
    OrderedResources := ""
    client := none }

/-! ## The builder (`velero/pkg/builder`) -/

namespace builder

/-- Library `builder.ForBackup`: a fresh `Backup` with its type meta, namespace
and name; everything else zero. -/
def ForBackup (ns name : String) : Backup :=
  { TypeMeta := { Kind := "Backup", APIVersion := "velero.io/v1" }
    ObjectMeta := { Name := name, Namespace := ns, Labels := none }
    Spec := { IncludedNamespaces := Slice.nil
              ExcludedNamespaces := Slice.nil
              IncludedResources := Slice.nil
              ExcludedResources := Slice.nil
              LabelSelector := none
              SnapshotVolumes := none
              TTL := 0
              IncludeClusterResources := none
              StorageLocation := ""
              VolumeSnapshotLocations := Slice.nil
              DefaultVolumesToRestic := none
              OrderedResources := none } }

/-- Library `BackupBuilder.IncludedNamespaces`. -/
def IncludedNamespaces (namespaces : Slice String) (b : Backup) : Backup :=
  { b with Spec := { b.Spec with IncludedNamespaces := namespaces } }

/-- Library `BackupBuilder.ExcludedNamespaces`. -/
def ExcludedNamespaces (namespaces : Slice String) (b : Backup) : Backup :=
  { b with Spec := { b.Spec with ExcludedNamespaces := namespaces } }

/-- Library `BackupBuilder.IncludedResources`. -/
def IncludedResources (resources : Slice String) (b : Backup) : Backup :=
  { b with Spec := { b.Spec with IncludedResources := resources } }

/-- Library `BackupBuilder.ExcludedResources`. -/
def ExcludedResources (resources : Slice String) (b : Backup) : Backup :=
  { b with Spec := { b.Spec with ExcludedResources := resources } }

/-- Library `BackupBuilder.LabelSelector`: stores the pointer it is given. -/
def LabelSelector (selector : Option LabelSelector) (b : Backup) : Backup :=
  { b with Spec := { b.Spec with LabelSelector := selector } }

/-- Library `BackupBuilder.TTL`. -/
def TTL (ttl : Duration) (b : Backup) : Backup :=
  { b with Spec := { b.Spec with TTL := ttl } }

/-- Library `BackupBuilder.StorageLocation`. -/
def StorageLocation (location : String) (b : Backup) : Backup :=
  { b with Spec := { b.Spec with StorageLocation := location } }

/-- Library `BackupBuilder.VolumeSnapshotLocations`. -/
def VolumeSnapshotLocations (locations : Slice String) (b : Backup) : Backup :=
  { b with Spec := { b.Spec with VolumeSnapshotLocations := locations } }

/-- Library `BackupBuilder.SnapshotVolumes`: stores a pointer to `val`. -/
def SnapshotVolumes (val : Bool) (b : Backup) : Backup :=
  { b with Spec := { b.Spec with SnapshotVolumes := some val } }

/-- Library `BackupBuilder.IncludeClusterResources`: stores a pointer to `val`. -/
def IncludeClusterResources (val : Bool) (b : Backup) : Backup :=
  { b with Spec := { b.Spec with IncludeClusterResources := some val } }

/-- Library `BackupBuilder.DefaultVolumesToRestic`: stores a pointer to `val`. -/
def DefaultVolumesToRestic (val : Bool) (b : Backup) : Backup :=
  { b with Spec := { b.Spec with DefaultVolumesToRestic := some val } }

/-- The loop `for k, v := range labels { objLabels[k] = v }` over the entries
of a map, starting from `objLabels`. -/
def assignAll (entries : List (Sigma fun _ : String => String)) (objLabels : GoMap) : GoMap :=
  entries.foldl (fun acc e => acc.insert e.1 e.2) objLabels

/-- Library `builder.WithLabelsMap` applied through `BackupBuilder.ObjectMeta`:
the object's labels (a fresh map when they are nil) receive every entry of
`labels`, and are stored back. -/
def WithLabelsMap (labels : Option GoMap) (b : Backup) : Backup :=
  let objLabels : GoMap :=
    match b.ObjectMeta.Labels with
    | none => ∅
    | some m => m
  let objLabels : GoMap :=
    match labels with
    | none => objLabels
    | some m => assignAll m.entries objLabels
  { b with ObjectMeta := { b.ObjectMeta with Labels := some objLabels } }

end builder

/-! ## `BuildBackup` -/

/-- Method `BackupOptions.BuildBackup` (backup.go lines 125-149): the built
request and the returned `error`. -/
def BuildBackup (o : BackupOptions) (ns : String) : Backup × Option GoError :=
  let backupBuilder :=
    builder.ForBackup ns o.Name
      |> builder.IncludedNamespaces o.IncludeNamespaces
      |> builder.ExcludedNamespaces o.ExcludeNamespaces
      |> builder.IncludedResources o.IncludeResources
      |> builder.ExcludedResources o.ExcludeResources
      |> builder.LabelSelector o.Selector.LabelSelector
      |> builder.TTL o.TTL
      |> builder.StorageLocation o.StorageLocation
      |> builder.VolumeSnapshotLocations o.SnapshotLocations
  let backupBuilder :=
    match o.SnapshotVolumes.Value with
    | some v => builder.SnapshotVolumes v backupBuilder
    | none => backupBuilder
  let backupBuilder :=
    match o.IncludeClusterResources.Value with
    | some v => builder.IncludeClusterResources v backupBuilder
    | none => backupBuilder
  let backupBuilder :=
    match o.DefaultVolumesToRestic.Value with
    | some v => builder.DefaultVolumesToRestic v backupBuilder
    | none => backupBuilder
  let backup := builder.WithLabelsMap o.Labels.Data backupBuilder
  (backup, none)

/-! ## `Complete`, `Validate`, `Run` and the command body -/

/-- The local environment that `Complete` reads: the home directory, path
joining, and the two client-construction calls of `clientcmd` and
`veleroclient`. `Config` is the type of the connection configuration. -/
structure Env (Config : Type) where
  userHomeDir : String
  filepathJoin : List String → String
  buildConfigFromFlags : String → String → Except GoError Config
  newForConfig : Config → Except GoError Client

/-- Method `BackupOptions.Complete` (backup.go lines 78-91): the returned
`error` and the options afterwards (`o.client` set on success). -/
def Complete {Config : Type} (env : Env Config) (o : BackupOptions) :
    Option GoError × BackupOptions :=
  let dir := env.userHomeDir
  let kubecfg := env.filepathJoin [dir, ".kube", "config"]
  match env.buildConfigFromFlags "" kubecfg with
  | Except.error err => (some err, o)
  | Except.ok config =>
    match env.newForConfig config with
    | Except.error err => (some err, o)
    | Except.ok client => (none, { o with client := some client })

/-- The loop of `Validate` over the snapshot locations still to be looked up.
A call through a nil `o.client` panics. -/
def validateLoop (client : Option Client) : List String → Outcome × List Event
  | [] => (Outcome.returned none, [])
  | loc :: rest =>
    match client with
    | none => (Outcome.panicked, [])
    | some c =>
      match c.getVolumeSnapshotLocation "velero" loc with
      | some err => (Outcome.returned (some err), [Event.getVolumeSnapshotLocation "velero" loc])
      | none =>
        let r := validateLoop client rest
        (r.1, Event.getVolumeSnapshotLocation "velero" loc :: r.2)

/-- Method `BackupOptions.Validate` (backup.go lines 93-100). -/
def Validate (o : BackupOptions) : Outcome × List Event :=
  validateLoop o.client o.SnapshotLocations.elems

/-- Method `BackupOptions.Run` (backup.go lines 102-123). `printWithFormat`
stands for `output.PrintWithFormat(c, ·)`: whether it printed, and its error. -/
def Run (printWithFormat : Backup → Bool × Option GoError) (o : BackupOptions) :
    Outcome × List Event :=
  match BuildBackup o "velero" with
  | (_, some err) => (Outcome.returned (some err), [])
  | (backup, none) =>
    match printWithFormat backup with
    | (printed, err) =>
      if printed || err.isSome then
        (Outcome.returned err, [Event.printWithFormat backup])
      else
        match o.client with
        | none => (Outcome.panicked, [Event.printWithFormat backup])
        | some c =>
          match c.createBackup backup.ObjectMeta.Namespace backup with
          | some err =>
            (Outcome.returned (some err),
              [Event.printWithFormat backup,
               Event.createBackup backup.ObjectMeta.Namespace backup])
          | none =>
            (Outcome.returned none,
              [Event.printWithFormat backup,
               Event.createBackup backup.ObjectMeta.Namespace backup,
               Event.stdoutPrintf "Backup request %q submitted successfully.\n"
                 [backup.ObjectMeta.Name],
               Event.stdoutPrintf
                 "Run `velero backup describe %s` or `velero backup logs %s` for more details.\n"
                 [backup.ObjectMeta.Name, backup.ObjectMeta.Name]])

/-- Library `cmd.CheckError`: on a non-nil error, report it on stderr (unless it
is `context.Canceled`) and exit with status 1. The result is the events, and
whether the process has exited. -/
def CheckError (err : Option GoError) : List Event × Bool :=
  match err with
  | none => ([], false)
  | some e =>
    if e ≠ GoError.contextCanceled then
      ([Event.stderrPrintf "An error occurred: %v\n" e, Event.osExit 1], true)
    else
      ([Event.osExit 1], true)

/-- How the command body ends. -/
inductive Termination where
  | returned (err : Option GoError) : Termination
  | exited : Termination
  | panicked : Termination
deriving DecidableEq, Repr

/-- Check of a method's outcome by `cmd.CheckError`, followed by the rest of
the command body when the process goes on. -/
def checked (r : Outcome × List Event) (rest : Unit → Termination × List Event) :
    Termination × List Event :=
  match r.1 with
  | Outcome.panicked => (Termination.panicked, r.2)
  | Outcome.returned err =>
    match CheckError err with
    | (evs, true) => (Termination.exited, r.2 ++ evs)
    | (evs, false) =>
      let k := rest ()
      (k.1, r.2 ++ evs ++ k.2)

/-- The `RunE` closure of `newBackupCmd` (backup.go lines 68-73), on the
options `opt`: `Complete`, `Validate`, `Run`, each checked by `CheckError`. -/
def RunE {Config : Type} (env : Env Config)
    (printWithFormat : Backup → Bool × Option GoError) (opt : BackupOptions) :
    Termination × List Event :=
  let c := Complete env opt
  let opt := c.2
  checked (Outcome.returned c.1, []) fun _ =>
  checked (Validate opt) fun _ =>
  checked (Run printWithFormat opt) fun _ =>
  (Termination.returned none, [])

/-- The remote create calls among a list of events. -/
def createCalls (evs : List Event) : List (String × Backup) :=
  evs.filterMap fun e =>
    match e with
    | Event.createBackup ns b => some (ns, b)
    | _ => none

/-- The names looked up, in order, among a list of events. -/
def lookupCalls (evs : List Event) : List (String × String) :=
  evs.filterMap fun e =>
    match e with
    | Event.getVolumeSnapshotLocation ns name => some (ns, name)
    | _ => none

/-- The events of a successful submission of `b`. -/
def submittedEvents (b : Backup) : List Event :=
  [Event.printWithFormat b,
   Event.createBackup b.ObjectMeta.Namespace b,
   Event.stdoutPrintf "Backup request %q submitted successfully.\n" [b.ObjectMeta.Name],
   Event.stdoutPrintf
     "Run `velero backup describe %s` or `velero backup logs %s` for more details.\n"
     [b.ObjectMeta.Name, b.ObjectMeta.Name]]

/-! ## Sample values -/

/-- A remote service on which every snapshot location exists except "missing",
and on which every create succeeds except for a backup named "taken". -/
def sampleClient : Client :=
  { getVolumeSnapshotLocation := fun _ name =>
      if name = "missing" then some (GoError.other "volumesnapshotlocation not found") else none
    createBackup := fun _ b =>
      if b.ObjectMeta.Name = "taken" then some (GoError.other "already exists") else none }

/-- The formatter when no output format is requested: prints nothing, no error. -/
def noFormat : Backup → Bool × Option GoError := fun _ => (false, none)

/-- An environment whose credential source yields `sampleClient`. -/
def sampleEnv : Env Unit :=
  { userHomeDir := "/root"
    filepathJoin := fun parts => String.intercalate "/" parts
    buildConfigFromFlags := fun _ _ => Except.ok ()
    newForConfig := fun _ => Except.ok sampleClient }

/-- The configuration of the end-to-end example: name "nightly-1", ttl 24h,
includeNamespaces ["prod"], no snapshot locations. -/
def nightlyOpt : BackupOptions :=
  { newBackupCmdOpt "nightly-1" with
    TTL := 24 * Hour
    IncludeNamespaces := Slice.mk ["prod"]
    SnapshotLocations := Slice.mk []
    client := some sampleClient }

/-- The three keys of the default match-labels. -/
def defaultLabelKeys : List String :=
  ["app.easycorp.work/managed-by", "k8s.easycorp.work/appid", "k8s.easycorp.work/name"]

/-- Value of the match-label `k` in a (possibly nil) selector, if it has one. -/
def selectorLabel (s : Option LabelSelector) (k : String) : Option String :=
  match s with
  | none => none
  | some sel => mapGet sel.MatchLabels k

/-! ## Lemmas on the builder -/

theorem lookup_assignAll (entries : List (Sigma fun _ : String => String))
    (h : entries.NodupKeys) (acc : GoMap) (k : String) :
    (builder.assignAll entries acc).lookup k =
      match List.dlookup k entries with
      | some v => some v
      | none => acc.lookup k := by
  induction entries generalizing acc with
  | nil => simp [builder.assignAll]
  | cons e rest ih =>
    obtain ⟨a, b⟩ := e
    have hn := List.nodupKeys_cons.mp h
    have step : builder.assignAll (⟨a, b⟩ :: rest) acc
        = builder.assignAll rest (acc.insert a b) := rfl
    rw [step, ih hn.2]
    by_cases hk : k = a
    · subst hk
      have hnone : List.dlookup k rest = none := List.dlookup_eq_none.mpr hn.1
      rw [hnone, List.dlookup_cons_eq]
      simp
    · rw [List.dlookup_cons_ne rest ⟨a, b⟩ hk]
      cases List.dlookup k rest with
      | some v => rfl
      | none => simp [AList.lookup_insert_ne hk]

theorem mapGet_WithLabelsMap_fresh (labels : Option GoMap) (b : Backup)
    (hb : b.ObjectMeta.Labels = none) (k : String) :
    mapGet (builder.WithLabelsMap labels b).ObjectMeta.Labels k = mapGet labels k := by
  cases labels with
  | none => simp [builder.WithLabelsMap, mapGet, hb]
  | some m =>
    simp only [builder.WithLabelsMap, mapGet, hb]
    rw [lookup_assignAll m.entries m.nodupKeys ∅ k]
    have : List.dlookup k m.entries = m.lookup k := rfl
    rw [this]
    cases m.lookup k <;> simp

theorem BuildBackup_err (o : BackupOptions) (ns : String) : (BuildBackup o ns).2 = none := rfl

theorem BuildBackup_spec (o : BackupOptions) (ns : String) :
    (BuildBackup o ns).1.Spec =
      { IncludedNamespaces := o.IncludeNamespaces
        ExcludedNamespaces := o.ExcludeNamespaces
        IncludedResources := o.IncludeResources
        ExcludedResources := o.ExcludeResources
        LabelSelector := o.Selector.LabelSelector
        SnapshotVolumes := o.SnapshotVolumes.Value
        TTL := o.TTL
        IncludeClusterResources := o.IncludeClusterResources.Value
        StorageLocation := o.StorageLocation
        VolumeSnapshotLocations := o.SnapshotLocations
        DefaultVolumesToRestic := o.DefaultVolumesToRestic.Value
        OrderedResources := none } := by
  unfold BuildBackup
  cases o.SnapshotVolumes.Value <;> cases o.IncludeClusterResources.Value <;>
    cases o.DefaultVolumesToRestic.Value <;> rfl

theorem BuildBackup_meta (o : BackupOptions) (ns : String) :
    (BuildBackup o ns).1.TypeMeta = { Kind := "Backup", APIVersion := "velero.io/v1" } ∧
    (BuildBackup o ns).1.ObjectMeta.Name = o.Name ∧
    (BuildBackup o ns).1.ObjectMeta.Namespace = ns := by
  unfold BuildBackup
  cases o.SnapshotVolumes.Value <;> cases o.IncludeClusterResources.Value <;>
    cases o.DefaultVolumesToRestic.Value <;> exact ⟨rfl, rfl, rfl⟩

theorem BuildBackup_labels (o : BackupOptions) (ns : String) (k : String) :
    mapGet (BuildBackup o ns).1.ObjectMeta.Labels k = mapGet o.Labels.Data k := by
  unfold BuildBackup
  cases o.SnapshotVolumes.Value <;> cases o.IncludeClusterResources.Value <;>
    cases o.DefaultVolumesToRestic.Value <;>
    exact mapGet_WithLabelsMap_fresh _ _ rfl k

/-! ## Claims on `BuildBackup` -/

/-- C1: for every options value and namespace, each of the three tri-state
fields of the built request (snapshotVolumes, includeClusterResources and
also defaultVolumesToRestic) equals the option's `Value`: absent when the option is
unset, present with exactly the option's boolean when it is set; and an unset
option and the same option set to false give different requests. -/
theorem BuildBackup_tristate (o : BackupOptions) (ns : String) :
    ((BuildBackup o ns).1.Spec.SnapshotVolumes = o.SnapshotVolumes.Value ∧
      (BuildBackup o ns).1.Spec.IncludeClusterResources = o.IncludeClusterResources.Value ∧
      (BuildBackup o ns).1.Spec.DefaultVolumesToRestic = o.DefaultVolumesToRestic.Value) ∧
    ((BuildBackup { o with SnapshotVolumes := { Value := none } } ns).1.Spec.SnapshotVolumes
        = none ∧
      (BuildBackup { o with IncludeClusterResources := { Value := none } }
        ns).1.Spec.IncludeClusterResources = none ∧
      (BuildBackup { o with DefaultVolumesToRestic := { Value := none } }
        ns).1.Spec.DefaultVolumesToRestic = none) ∧
    (∀ v : Bool,
      (BuildBackup { o with SnapshotVolumes := { Value := some v } } ns).1.Spec.SnapshotVolumes
        = some v ∧
      (BuildBackup { o with IncludeClusterResources := { Value := some v } }
        ns).1.Spec.IncludeClusterResources = some v ∧
      (BuildBackup { o with DefaultVolumesToRestic := { Value := some v } }
        ns).1.Spec.DefaultVolumesToRestic = some v) ∧
    ((BuildBackup { o with SnapshotVolumes := { Value := none } } ns).1
        ≠ (BuildBackup { o with SnapshotVolumes := { Value := some false } } ns).1 ∧
      (BuildBackup { o with IncludeClusterResources := { Value := none } } ns).1
        ≠ (BuildBackup { o with IncludeClusterResources := { Value := some false } } ns).1 ∧
      (BuildBackup { o with DefaultVolumesToRestic := { Value := none } } ns).1
        ≠ (BuildBackup { o with DefaultVolumesToRestic := { Value := some false } } ns).1) := by
  refine ⟨?_, ?_, ?_, ?_, ?_, ?_⟩
  · simp [BuildBackup_spec]
  · simp [BuildBackup_spec]
  · intro v
    simp [BuildBackup_spec]
  · intro h
    have h2 := congrArg (fun b => b.Spec.SnapshotVolumes) h
    simp [BuildBackup_spec] at h2
  · intro h
    have h2 := congrArg (fun b => b.Spec.IncludeClusterResources) h
    simp [BuildBackup_spec] at h2
  · intro h
    have h2 := congrArg (fun b => b.Spec.DefaultVolumesToRestic) h
    simp [BuildBackup_spec] at h2

/-- C2: whenever includeNamespaces is left as `newBackupCmd` initialises it,
whatever the other fields, the built request's includedNamespaces is exactly
the one-element list ["*"]. -/
theorem BuildBackup_default_includedNamespaces (o : BackupOptions) (now ns : String) :
    (BuildBackup { o with IncludeNamespaces := (newBackupCmdOpt now).IncludeNamespaces }
        ns).1.Spec.IncludedNamespaces = Slice.mk ["*"] ∧
    (BuildBackup (newBackupCmdOpt now) ns).1.Spec.IncludedNamespaces = Slice.mk ["*"] := by
  constructor
  · rw [BuildBackup_spec]
    rfl
  · rw [BuildBackup_spec]
    rfl

/-- C3: when the selector of the options is replaced by an override `s`, the
label selector of the built request is `s` itself; each of the three default
match-labels has in the built selector the value it has in `s`, so it is absent
from the built selector whenever `s` does not contain it. -/
theorem BuildBackup_selector_override (o : BackupOptions) (s : Option LabelSelector)
    (ns : String) :
    (BuildBackup { o with Selector := { LabelSelector := s } } ns).1.Spec.LabelSelector = s ∧
    (∀ k ∈ defaultLabelKeys,
      selectorLabel
        (BuildBackup { o with Selector := { LabelSelector := s } } ns).1.Spec.LabelSelector k
        = selectorLabel s k) ∧
    (∀ k ∈ defaultLabelKeys, selectorLabel s k = none →
      selectorLabel
        (BuildBackup { o with Selector := { LabelSelector := s } } ns).1.Spec.LabelSelector k
        = none) := by
  have h : (BuildBackup { o with Selector := { LabelSelector := s } } ns).1.Spec.LabelSelector
      = s := by
    rw [BuildBackup_spec]
  refine ⟨h, ?_, ?_⟩
  · intro k _
    rw [h]
  · intro k _ hk
    rw [h]
    exact hk

/-- C7: `BuildBackup` never returns an error, and the built request carries the
options' name, the given namespace, ttl, the five lists unchanged, the storage
location and the entries of the labels map; the configuration named
"nightly-1" with ttl 24h and includeNamespaces ["prod"] builds a request with
those values, and `Run` submits it once, in namespace "velero", under the name
"nightly-1". -/
theorem BuildBackup_fields :
    (∀ (o : BackupOptions) (ns : String),
      (BuildBackup o ns).2 = none ∧
      (BuildBackup o ns).1.ObjectMeta.Name = o.Name ∧
      (BuildBackup o ns).1.ObjectMeta.Namespace = ns ∧
      (BuildBackup o ns).1.Spec.TTL = o.TTL ∧
      (BuildBackup o ns).1.Spec.IncludedNamespaces = o.IncludeNamespaces ∧
      (BuildBackup o ns).1.Spec.ExcludedNamespaces = o.ExcludeNamespaces ∧
      (BuildBackup o ns).1.Spec.IncludedResources = o.IncludeResources ∧
      (BuildBackup o ns).1.Spec.ExcludedResources = o.ExcludeResources ∧
      (BuildBackup o ns).1.Spec.VolumeSnapshotLocations = o.SnapshotLocations ∧
      (BuildBackup o ns).1.Spec.StorageLocation = o.StorageLocation ∧
      (∀ k, mapGet (BuildBackup o ns).1.ObjectMeta.Labels k = mapGet o.Labels.Data k)) ∧
    ((BuildBackup nightlyOpt "velero").2 = none ∧
      (BuildBackup nightlyOpt "velero").1.ObjectMeta.Name = "nightly-1" ∧
      (BuildBackup nightlyOpt "velero").1.Spec.TTL = 24 * Hour ∧
      (BuildBackup nightlyOpt "velero").1.Spec.IncludedNamespaces = Slice.mk ["prod"] ∧
      (BuildBackup nightlyOpt "velero").1.Spec.VolumeSnapshotLocations = Slice.mk []) ∧
    (∀ c : Client,
      (createCalls (Run noFormat { nightlyOpt with client := some c }).2).map
        (fun p => (p.2.ObjectMeta.Name, p.1)) = [("nightly-1", "velero")] ∧
      createCalls (Run noFormat { nightlyOpt with client := some c }).2
        = [("velero", (BuildBackup nightlyOpt "velero").1)]) := by
  refine ⟨?_, ?_, ?_⟩
  · intro o ns
    refine ⟨rfl, (BuildBackup_meta o ns).2.1, (BuildBackup_meta o ns).2.2, ?_, ?_, ?_, ?_, ?_,
      ?_, ?_, BuildBackup_labels o ns⟩ <;> rw [BuildBackup_spec]
  · exact ⟨rfl, rfl, rfl, rfl, rfl⟩
  · intro c
    have hrun : (Run noFormat { nightlyOpt with client := some c }).2 =
        match c.createBackup "velero" (BuildBackup nightlyOpt "velero").1 with
        | some _ =>
          [Event.printWithFormat (BuildBackup nightlyOpt "velero").1,
           Event.createBackup "velero" (BuildBackup nightlyOpt "velero").1]
        | none =>
          [Event.printWithFormat (BuildBackup nightlyOpt "velero").1,
           Event.createBackup "velero" (BuildBackup nightlyOpt "velero").1,
           Event.stdoutPrintf "Backup request %q submitted successfully.\n" ["nightly-1"],
           Event.stdoutPrintf
             "Run `velero backup describe %s` or `velero backup logs %s` for more details.\n"
             ["nightly-1", "nightly-1"]] := by
      show (match c.createBackup "velero" (BuildBackup nightlyOpt "velero").1 with
        | some err => _
        | none => _ : Outcome × List Event).2 = _
      cases c.createBackup "velero" (BuildBackup nightlyOpt "velero").1 <;> rfl
    rw [hrun]
    cases c.createBackup "velero" (BuildBackup nightlyOpt "velero").1 <;>
      exact ⟨rfl, rfl⟩

/-- C9 (as stated, refuted): with the options as `newBackupCmd` initialises
them, the three tri-state fields of the built request are not all absent. -/
theorem newBackupCmd_not_all_absent :
    ¬ ((BuildBackup (newBackupCmdOpt "1700000000") "velero").1.Spec.SnapshotVolumes = none ∧
       (BuildBackup (newBackupCmdOpt "1700000000") "velero").1.Spec.IncludeClusterResources
         = none ∧
       (BuildBackup (newBackupCmdOpt "1700000000") "velero").1.Spec.DefaultVolumesToRestic
         = none) := by
  intro h
  have h1 := h.1
  rw [BuildBackup_spec] at h1
  exact Option.noConfusion h1

/-- C9 (amended): with the options as `newBackupCmd` initialises them, the built
request has snapshotVolumes and includeClusterResources present with the value
true, and defaultVolumesToRestic absent. -/
theorem newBackupCmd_explicit_defaults (now ns : String) :
    (BuildBackup (newBackupCmdOpt now) ns).1.Spec.SnapshotVolumes = some true ∧
    (BuildBackup (newBackupCmdOpt now) ns).1.Spec.IncludeClusterResources = some true ∧
    (BuildBackup (newBackupCmdOpt now) ns).1.Spec.DefaultVolumesToRestic = none := by
  rw [BuildBackup_spec]
  exact ⟨rfl, rfl, rfl⟩

/-- C10: the built request does not depend on the FromSchedule and
OrderedResources options: two options values that differ at most in those two
fields build equal requests, and the orderedResources of the built request is
always nil. -/
theorem BuildBackup_ignores_schedule_and_order (o : BackupOptions) (ns : String)
    (fs ord fs2 ord2 : String) :
    BuildBackup { o with FromSchedule := fs, OrderedResources := ord } ns
      = BuildBackup { o with FromSchedule := fs2, OrderedResources := ord2 } ns ∧
    BuildBackup { o with FromSchedule := fs, OrderedResources := ord } ns = BuildBackup o ns ∧
    (BuildBackup o ns).1.Spec.OrderedResources = none := by
  refine ⟨rfl, rfl, ?_⟩
  rw [BuildBackup_spec]

/-! ## Lemmas on `Validate` -/

theorem validateLoop_all_ok (c : Client) (locs : List String)
    (h : ∀ loc ∈ locs, c.getVolumeSnapshotLocation "velero" loc = none) :
    validateLoop (some c) locs
      = (Outcome.returned none, locs.map (Event.getVolumeSnapshotLocation "velero")) := by
  induction locs with
  | nil => rfl
  | cons loc rest ih =>
    have h1 : c.getVolumeSnapshotLocation "velero" loc = none := h loc (List.mem_cons_self _ _)
    have h2 := ih fun x hx => h x (List.mem_cons_of_mem _ hx)
    simp only [validateLoop, h1, h2, List.map_cons]

theorem validateLoop_first_failure (c : Client) (pre : List String) (loc : String)
    (post : List String) (e : GoError)
    (hpre : ∀ x ∈ pre, c.getVolumeSnapshotLocation "velero" x = none)
    (hloc : c.getVolumeSnapshotLocation "velero" loc = some e) :
    validateLoop (some c) (pre ++ loc :: post)
      = (Outcome.returned (some e),
          (pre ++ [loc]).map (Event.getVolumeSnapshotLocation "velero")) := by
  induction pre with
  | nil => simp only [List.nil_append, validateLoop, hloc, List.map_cons, List.map_nil]
  | cons x rest ih =>
    have h1 : c.getVolumeSnapshotLocation "velero" x = none := hpre x (List.mem_cons_self _ _)
    have h2 := ih fun y hy => hpre y (List.mem_cons_of_mem _ hy)
    have step : validateLoop (some c) ((x :: rest) ++ loc :: post)
        = ((validateLoop (some c) (rest ++ loc :: post)).1,
            Event.getVolumeSnapshotLocation "velero" x
              :: (validateLoop (some c) (rest ++ loc :: post)).2) := by
      show validateLoop (some c) (x :: (rest ++ loc :: post)) = _
      simp only [validateLoop, h1]
    rw [step, h2]
    rfl

theorem exists_first_failure (c : Client) (locs : List String)
    (h : ¬ ∀ loc ∈ locs, c.getVolumeSnapshotLocation "velero" loc = none) :
    ∃ pre loc post e, locs = pre ++ loc :: post ∧
      (∀ x ∈ pre, c.getVolumeSnapshotLocation "velero" x = none) ∧
      c.getVolumeSnapshotLocation "velero" loc = some e := by
  induction locs with
  | nil => exact absurd (fun _ hx => absurd hx (List.not_mem_nil _)) h
  | cons x rest ih =>
    cases hx : c.getVolumeSnapshotLocation "velero" x with
    | some e => exact ⟨[], x, rest, e, rfl, fun _ hy => absurd hy (List.not_mem_nil _), hx⟩
    | none =>
      have hrest : ¬ ∀ loc ∈ rest, c.getVolumeSnapshotLocation "velero" loc = none := by
        intro hall
        apply h
        intro loc hloc
        rcases List.mem_cons.mp hloc with rfl | hmem
        · exact hx
        · exact hall loc hmem
      obtain ⟨pre, loc, post, e, heq, hpre, hloc⟩ := ih hrest
      refine ⟨x :: pre, loc, post, e, by rw [heq]; rfl, ?_, hloc⟩
      intro y hy
      rcases List.mem_cons.mp hy with rfl | hmem
      · exact hx
      · exact hpre y hmem

theorem createCalls_lookups (ns : String) (locs : List String) :
    createCalls (locs.map (Event.getVolumeSnapshotLocation ns)) = [] := by
  induction locs with
  | nil => rfl
  | cons x rest ih => simp [createCalls]

theorem lookupCalls_lookups (ns : String) (locs : List String) :
    lookupCalls (locs.map (Event.getVolumeSnapshotLocation ns)) = locs.map fun x => (ns, x) := by
  induction locs with
  | nil => rfl
  | cons x rest ih => simpa [lookupCalls] using ih

/-! ## Claims on `Validate` -/

/-- C4: with a client in place, `Validate` succeeds exactly when the lookup of
every listed snapshot location succeeds, and then it has looked up every entry
in list order; otherwise the list splits at its first failing entry, and
`Validate` returns the error of that entry's lookup, having looked up exactly
the entries up to and including it and none after it. -/
theorem Validate_fail_fast (o : BackupOptions) (c : Client) :
    ((Validate { o with client := some c }).1 = Outcome.returned none ↔
      ∀ loc ∈ o.SnapshotLocations.elems, c.getVolumeSnapshotLocation "velero" loc = none) ∧
    ((∀ loc ∈ o.SnapshotLocations.elems, c.getVolumeSnapshotLocation "velero" loc = none) →
      Validate { o with client := some c }
        = (Outcome.returned none,
            o.SnapshotLocations.elems.map (Event.getVolumeSnapshotLocation "velero"))) ∧
    (∀ pre loc post e, o.SnapshotLocations.elems = pre ++ loc :: post →
      (∀ x ∈ pre, c.getVolumeSnapshotLocation "velero" x = none) →
      c.getVolumeSnapshotLocation "velero" loc = some e →
      Validate { o with client := some c }
        = (Outcome.returned (some e),
            (pre ++ [loc]).map (Event.getVolumeSnapshotLocation "velero")) ∧
      lookupCalls (Validate { o with client := some c }).2
        = (pre ++ [loc]).map fun x => ("velero", x)) ∧
    ((¬ ∀ loc ∈ o.SnapshotLocations.elems, c.getVolumeSnapshotLocation "velero" loc = none) →
      ∃ pre loc post e, o.SnapshotLocations.elems = pre ++ loc :: post ∧
        (∀ x ∈ pre, c.getVolumeSnapshotLocation "velero" x = none) ∧
        c.getVolumeSnapshotLocation "velero" loc = some e ∧
        (Validate { o with client := some c }).1 = Outcome.returned (some e)) := by
  have hV : Validate { o with client := some c }
      = validateLoop (some c) o.SnapshotLocations.elems := rfl
  have hfail : ∀ pre loc post e, o.SnapshotLocations.elems = pre ++ loc :: post →
      (∀ x ∈ pre, c.getVolumeSnapshotLocation "velero" x = none) →
      c.getVolumeSnapshotLocation "velero" loc = some e →
      Validate { o with client := some c }
        = (Outcome.returned (some e),
            (pre ++ [loc]).map (Event.getVolumeSnapshotLocation "velero")) := by
    intro pre loc post e heq hpre hloc
    rw [hV, heq]
    exact validateLoop_first_failure c pre loc post e hpre hloc
  refine ⟨⟨?_, ?_⟩, ?_, ?_, ?_⟩
  · intro hok
    by_contra hnot
    obtain ⟨pre, loc, post, e, heq, hpre, hloc⟩ := exists_first_failure c _ hnot
    rw [hfail pre loc post e heq hpre hloc] at hok
    cases hok
  · intro hall
    rw [hV, validateLoop_all_ok c _ hall]
  · intro hall
    rw [hV, validateLoop_all_ok c _ hall]
  · intro pre loc post e heq hpre hloc
    refine ⟨hfail pre loc post e heq hpre hloc, ?_⟩
    rw [hfail pre loc post e heq hpre hloc]
    exact lookupCalls_lookups "velero" (pre ++ [loc])
  · intro hnot
    obtain ⟨pre, loc, post, e, heq, hpre, hloc⟩ := exists_first_failure c _ hnot
    refine ⟨pre, loc, post, e, heq, hpre, hloc, ?_⟩
    rw [hfail pre loc post e heq hpre hloc]

/-- C5: when the options have no snapshot locations (a nil or a zero-length
list), `Validate` returns success and makes no remote call, whatever the client
is, even when there is none. -/
theorem Validate_empty (o : BackupOptions) (h : o.SnapshotLocations.elems = []) :
    Validate o = (Outcome.returned none, []) ∧ lookupCalls (Validate o).2 = [] := by
  have hV : Validate o = (Outcome.returned none, []) := by
    unfold Validate
    rw [h]
    rfl
  exact ⟨hV, by rw [hV]; rfl⟩

theorem Validate_empty_witness :
    (newBackupCmdOpt "1700000000").SnapshotLocations.elems = [] ∧
    ({ nightlyOpt with SnapshotLocations := Slice.mk [] } : BackupOptions).SnapshotLocations.elems
      = [] ∧
    Validate (newBackupCmdOpt "1700000000") = (Outcome.returned none, []) ∧
    Validate { nightlyOpt with SnapshotLocations := Slice.mk [] } = (Outcome.returned none, []) :=
  ⟨rfl, rfl, (Validate_empty (newBackupCmdOpt "1700000000") rfl).1,
    (Validate_empty { nightlyOpt with SnapshotLocations := Slice.mk [] } rfl).1⟩

theorem Validate_fail_fast_witness :
    Validate { nightlyOpt with SnapshotLocations := Slice.mk ["a", "missing", "b", "missing"] }
      = (Outcome.returned (some (GoError.other "volumesnapshotlocation not found")),
          [Event.getVolumeSnapshotLocation "velero" "a",
           Event.getVolumeSnapshotLocation "velero" "missing"]) :=
  ((Validate_fail_fast
      { nightlyOpt with SnapshotLocations := Slice.mk ["a", "missing", "b", "missing"] }
      sampleClient).2.2.1 ["a"] "missing" ["b", "missing"]
      (GoError.other "volumesnapshotlocation not found") rfl (by decide) rfl).1

/-! ## Lemmas on `Run` -/

theorem Run_formatter_stops (pwf : Backup → Bool × Option GoError) (o : BackupOptions)
    (h : pwf (BuildBackup o "velero").1 ≠ (false, none)) :
    Run pwf o = (Outcome.returned (pwf (BuildBackup o "velero").1).2,
      [Event.printWithFormat (BuildBackup o "velero").1]) := by
  have hrun : Run pwf o =
      match pwf (BuildBackup o "velero").1 with
      | (printed, err) =>
        if printed || err.isSome then
          (Outcome.returned err, [Event.printWithFormat (BuildBackup o "velero").1])
        else
          match o.client with
          | none => (Outcome.panicked, [Event.printWithFormat (BuildBackup o "velero").1])
          | some c =>
            match c.createBackup (BuildBackup o "velero").1.ObjectMeta.Namespace
                (BuildBackup o "velero").1 with
            | some err =>
              (Outcome.returned (some err),
                [Event.printWithFormat (BuildBackup o "velero").1,
                 Event.createBackup (BuildBackup o "velero").1.ObjectMeta.Namespace
                   (BuildBackup o "velero").1])
            | none => (Outcome.returned none, submittedEvents (BuildBackup o "velero").1) := rfl
  rw [hrun]
  rcases hp : pwf (BuildBackup o "velero").1 with ⟨printed, err⟩
  rw [hp] at h
  cases printed with
  | true => simp
  | false =>
    cases err with
    | none => exact absurd rfl h
    | some e => simp

theorem Run_submits (pwf : Backup → Bool × Option GoError) (o : BackupOptions) (c : Client)
    (hc : o.client = some c) (h : pwf (BuildBackup o "velero").1 = (false, none)) :
    Run pwf o =
      match c.createBackup "velero" (BuildBackup o "velero").1 with
      | some err =>
        (Outcome.returned (some err),
          [Event.printWithFormat (BuildBackup o "velero").1,
           Event.createBackup "velero" (BuildBackup o "velero").1])
      | none => (Outcome.returned none, submittedEvents (BuildBackup o "velero").1) := by
  have hrun : Run pwf o =
      match pwf (BuildBackup o "velero").1 with
      | (printed, err) =>
        if printed || err.isSome then
          (Outcome.returned err, [Event.printWithFormat (BuildBackup o "velero").1])
        else
          match o.client with
          | none => (Outcome.panicked, [Event.printWithFormat (BuildBackup o "velero").1])
          | some c =>
            match c.createBackup (BuildBackup o "velero").1.ObjectMeta.Namespace
                (BuildBackup o "velero").1 with
            | some err =>
              (Outcome.returned (some err),
                [Event.printWithFormat (BuildBackup o "velero").1,
                 Event.createBackup (BuildBackup o "velero").1.ObjectMeta.Namespace
                   (BuildBackup o "velero").1])
            | none => (Outcome.returned none, submittedEvents (BuildBackup o "velero").1) := rfl
  rw [hrun, h, hc]
  simp only [Bool.false_or, Option.isSome_none, Bool.false_eq_true, if_false,
    (BuildBackup_meta o "velero").2.2]

/-! ## Claims on `Run` -/

/-- C8: when a client is in place and the output formatter neither prints nor
fails, `Run` makes exactly one remote create call, of the request built by
`BuildBackup`, in that request's own namespace ("velero"), and `Run` returns
exactly what that call returned: nil on success, the remote error unchanged on
failure. -/
theorem Run_single_create (pwf : Backup → Bool × Option GoError) (o : BackupOptions)
    (c : Client) (hc : o.client = some c)
    (h : pwf (BuildBackup o "velero").1 = (false, none)) :
    createCalls (Run pwf o).2
      = [((BuildBackup o "velero").1.ObjectMeta.Namespace, (BuildBackup o "velero").1)] ∧
    (BuildBackup o "velero").1.ObjectMeta.Namespace = "velero" ∧
    (Run pwf o).1 = Outcome.returned (c.createBackup "velero" (BuildBackup o "velero").1) := by
  have hns := (BuildBackup_meta o "velero").2.2
  rw [Run_submits pwf o c hc h, hns]
  cases c.createBackup "velero" (BuildBackup o "velero").1 with
  | some err => exact ⟨rfl, rfl, rfl⟩
  | none =>
    refine ⟨?_, rfl, rfl⟩
    simp [submittedEvents, createCalls, hns]

theorem Run_single_create_witness :
    (createCalls (Run noFormat nightlyOpt).2
        = [("velero", (BuildBackup nightlyOpt "velero").1)] ∧
      (Run noFormat nightlyOpt).1 = Outcome.returned none) ∧
    (createCalls (Run noFormat { nightlyOpt with Name := "taken" }).2
        = [("velero", (BuildBackup { nightlyOpt with Name := "taken" } "velero").1)] ∧
      (Run noFormat { nightlyOpt with Name := "taken" }).1
        = Outcome.returned (some (GoError.other "already exists"))) :=
  ⟨⟨(Run_single_create noFormat nightlyOpt sampleClient rfl rfl).1,
      (Run_single_create noFormat nightlyOpt sampleClient rfl rfl).2.2⟩,
    ⟨(Run_single_create noFormat { nightlyOpt with Name := "taken" } sampleClient rfl rfl).1,
      (Run_single_create noFormat { nightlyOpt with Name := "taken" } sampleClient
        rfl rfl).2.2⟩⟩

/-! ## Lemmas on the command body -/

theorem CheckError_some (e : GoError) :
    (CheckError (some e)).2 = true ∧ createCalls (CheckError (some e)).1 = [] ∧
      lookupCalls (CheckError (some e)).1 = [] := by
  unfold CheckError
  by_cases h : e = GoError.contextCanceled
  · simp [h, createCalls, lookupCalls]
  · simp [h, createCalls, lookupCalls]

theorem checked_err (r : Outcome × List Event) (rest : Unit → Termination × List Event)
    (e : GoError) (h : r.1 = Outcome.returned (some e)) :
    checked r rest = (Termination.exited, r.2 ++ (CheckError (some e)).1) := by
  have h2 := (CheckError_some e).1
  simp only [checked, h]
  rcases hce : CheckError (some e) with ⟨evs, b⟩
  rw [hce] at h2
  simp only at h2
  subst h2
  rfl

theorem checked_ok (r : Outcome × List Event) (rest : Unit → Termination × List Event)
    (h : r.1 = Outcome.returned none) :
    checked r rest = ((rest ()).1, r.2 ++ (rest ()).2) := by
  unfold checked
  rw [h]
  simp [CheckError]

theorem createCalls_append (xs ys : List Event) :
    createCalls (xs ++ ys) = createCalls xs ++ createCalls ys := by
  simp [createCalls, List.filterMap_append]

theorem lookupCalls_append (xs ys : List Event) :
    lookupCalls (xs ++ ys) = lookupCalls xs ++ lookupCalls ys := by
  simp [lookupCalls, List.filterMap_append]

theorem Complete_SnapshotLocations {Config : Type} (env : Env Config) (o : BackupOptions) :
    (Complete env o).2.SnapshotLocations = o.SnapshotLocations := by
  simp only [Complete]
  split
  · rfl
  · split <;> rfl

theorem Complete_ok_client {Config : Type} (env : Env Config) (o : BackupOptions)
    (h : (Complete env o).1 = none) : ∃ c, (Complete env o).2.client = some c := by
  simp only [Complete] at h ⊢
  split at h
  · cases h
  · split at h
    · cases h
    · rename_i client hcl
      simp only [hcl]
      exact ⟨client, rfl⟩

theorem RunE_unfold {Config : Type} (env : Env Config)
    (pwf : Backup → Bool × Option GoError) (opt : BackupOptions) :
    RunE env pwf opt =
      checked (Outcome.returned (Complete env opt).1, []) fun _ =>
      checked (Validate (Complete env opt).2) fun _ =>
      checked (Run pwf (Complete env opt).2) fun _ =>
      (Termination.returned none, []) := rfl

theorem Validate_of_client (o : BackupOptions) (c : Client) (hc : o.client = some c) :
    Validate o = validateLoop (some c) o.SnapshotLocations.elems := by
  unfold Validate
  rw [hc]

/-- After a failed `Complete`, the process exits without any remote call. -/
theorem RunE_complete_failed {Config : Type} (env : Env Config)
    (pwf : Backup → Bool × Option GoError) (opt : BackupOptions) (e : GoError)
    (h : (Complete env opt).1 = some e) :
    RunE env pwf opt = (Termination.exited, (CheckError (some e)).1) := by
  rw [RunE_unfold, checked_err _ _ e (by rw [h])]
  rfl

/-- After a successful `Complete`, a failing lookup stops the process at
`Validate`. -/
theorem RunE_validate_failed {Config : Type} (env : Env Config)
    (pwf : Backup → Bool × Option GoError) (opt : BackupOptions) (e : GoError)
    (h : (Complete env opt).1 = none)
    (hv : (Validate (Complete env opt).2).1 = Outcome.returned (some e)) :
    RunE env pwf opt
      = (Termination.exited, (Validate (Complete env opt).2).2 ++ (CheckError (some e)).1) := by
  rw [RunE_unfold, checked_ok _ _ (by rw [h]), checked_err _ _ e hv]
  rfl

/-- After a successful `Complete` and a successful `Validate`, the events are
those of `Validate` followed by those of the checked `Run`. -/
theorem RunE_validate_ok {Config : Type} (env : Env Config)
    (pwf : Backup → Bool × Option GoError) (opt : BackupOptions)
    (h : (Complete env opt).1 = none)
    (hv : (Validate (Complete env opt).2).1 = Outcome.returned none) :
    (RunE env pwf opt).2 = (Validate (Complete env opt).2).2 ++
      (checked (Run pwf (Complete env opt).2) fun _ => (Termination.returned none, [])).2 := by
  rw [RunE_unfold, checked_ok _ _ (by rw [h]), checked_ok _ _ hv]
  rfl

/-- The events of the checked `Run` contain a create call only in the form
"formatter call, create call in velero, then no further remote call". -/
theorem checked_Run_events (pwf : Backup → Bool × Option GoError) (o : BackupOptions)
    (c : Client) (hc : o.client = some c) :
    createCalls (checked (Run pwf o) fun _ => (Termination.returned none, [])).2 = [] ∨
    ∃ rest, (checked (Run pwf o) fun _ => (Termination.returned none, [])).2
        = Event.printWithFormat (BuildBackup o "velero").1
            :: Event.createBackup "velero" (BuildBackup o "velero").1 :: rest ∧
      createCalls rest = [] ∧ lookupCalls rest = [] := by
  have hns := (BuildBackup_meta o "velero").2.2
  by_cases hp : pwf (BuildBackup o "velero").1 = (false, none)
  · right
    have hrun := Run_submits pwf o c hc hp
    cases hcr : c.createBackup "velero" (BuildBackup o "velero").1 with
    | some err =>
      rw [hcr] at hrun
      rw [checked_err _ _ err (by rw [hrun]), hrun]
      exact ⟨(CheckError (some err)).1, rfl, (CheckError_some err).2.1,
        (CheckError_some err).2.2⟩
    | none =>
      rw [hcr] at hrun
      rw [checked_ok _ _ (by rw [hrun]), hrun]
      refine ⟨[Event.stdoutPrintf "Backup request %q submitted successfully.\n"
            [(BuildBackup o "velero").1.ObjectMeta.Name],
          Event.stdoutPrintf
            "Run `velero backup describe %s` or `velero backup logs %s` for more details.\n"
            [(BuildBackup o "velero").1.ObjectMeta.Name,
             (BuildBackup o "velero").1.ObjectMeta.Name]], ?_, rfl, rfl⟩
      simp only [submittedEvents, hns, List.append_nil]
  · left
    have hrun := Run_formatter_stops pwf o hp
    cases herr : (pwf (BuildBackup o "velero").1).2 with
    | some err =>
      rw [herr] at hrun
      rw [checked_err _ _ err (by rw [hrun]), hrun, createCalls_append,
        (CheckError_some err).2.1]
      rfl
    | none =>
      rw [herr] at hrun
      rw [checked_ok _ _ (by rw [hrun]), hrun]
      rfl

/-! ## Claims on the run sequence -/

/-- C6: in the sequence Complete, Validate, Run of the command body, (1) when
`Complete` fails the process exits with no create call; (2) when `Complete`
has installed a client and the lookup of some listed snapshot location fails on
it, the process exits at `Validate` (its events are the lookups of `Validate`
followed by the error report and exit) and no create call is made; (3) whenever
a create call is made, `Complete` succeeded, the lookup of every listed
location succeeded, and the events are all those lookups in list order,
followed by the formatter call and the single create call in namespace
"velero". -/
theorem RunE_validates_before_create {Config : Type} (env : Env Config)
    (pwf : Backup → Bool × Option GoError) (opt : BackupOptions) :
    (∀ e, (Complete env opt).1 = some e →
      (RunE env pwf opt).1 = Termination.exited ∧ createCalls (RunE env pwf opt).2 = [] ∧
        lookupCalls (RunE env pwf opt).2 = []) ∧
    (∀ c, (Complete env opt).1 = none → (Complete env opt).2.client = some c →
      (∃ loc ∈ opt.SnapshotLocations.elems, c.getVolumeSnapshotLocation "velero" loc ≠ none) →
      (RunE env pwf opt).1 = Termination.exited ∧
      createCalls (RunE env pwf opt).2 = [] ∧
      ∃ e, (Validate (Complete env opt).2).1 = Outcome.returned (some e) ∧
        (RunE env pwf opt).2
          = (Validate (Complete env opt).2).2 ++ (CheckError (some e)).1) ∧
    (createCalls (RunE env pwf opt).2 ≠ [] →
      ∃ c, (Complete env opt).1 = none ∧ (Complete env opt).2.client = some c ∧
        (∀ loc ∈ opt.SnapshotLocations.elems, c.getVolumeSnapshotLocation "velero" loc = none) ∧
        ∃ rest, (RunE env pwf opt).2
            = opt.SnapshotLocations.elems.map (Event.getVolumeSnapshotLocation "velero")
              ++ Event.printWithFormat (BuildBackup (Complete env opt).2 "velero").1
              :: Event.createBackup "velero" (BuildBackup (Complete env opt).2 "velero").1
              :: rest ∧
          createCalls rest = [] ∧ lookupCalls rest = []) := by
  have hlocs := Complete_SnapshotLocations env opt
  -- a failing lookup on the installed client stops the process at Validate
  have hstop : ∀ c, (Complete env opt).1 = none → (Complete env opt).2.client = some c →
      (¬ ∀ loc ∈ opt.SnapshotLocations.elems, c.getVolumeSnapshotLocation "velero" loc = none) →
      ∃ e, (Validate (Complete env opt).2).1 = Outcome.returned (some e) ∧
        RunE env pwf opt
          = (Termination.exited, (Validate (Complete env opt).2).2 ++ (CheckError (some e)).1) ∧
        createCalls (RunE env pwf opt).2 = [] := by
    intro c hok hc hnot
    obtain ⟨pre, loc, post, e, heq, hpre, hloc⟩ := exists_first_failure c _ hnot
    have hV : Validate (Complete env opt).2
        = (Outcome.returned (some e),
            (pre ++ [loc]).map (Event.getVolumeSnapshotLocation "velero")) := by
      rw [Validate_of_client _ c hc, hlocs, heq]
      exact validateLoop_first_failure c pre loc post e hpre hloc
    have hR := RunE_validate_failed env pwf opt e hok (by rw [hV])
    refine ⟨e, by rw [hV], hR, ?_⟩
    rw [hR, hV, createCalls_append, createCalls_lookups, (CheckError_some e).2.1]
    rfl
  refine ⟨?_, ?_, ?_⟩
  · intro e he
    rw [RunE_complete_failed env pwf opt e he]
    exact ⟨rfl, (CheckError_some e).2.1, (CheckError_some e).2.2⟩
  · intro c hok hc hex
    obtain ⟨loc, hmem, hne⟩ := hex
    obtain ⟨e, hv, hR, hcreate⟩ := hstop c hok hc (fun hall => hne (hall loc hmem))
    exact ⟨by rw [hR], hcreate, e, hv, by rw [hR]⟩
  · intro hcreate
    cases hcomp : (Complete env opt).1 with
    | some e =>
      rw [RunE_complete_failed env pwf opt e hcomp, (CheckError_some e).2.1] at hcreate
      exact absurd rfl hcreate
    | none =>
      obtain ⟨c, hc⟩ := Complete_ok_client env opt hcomp
      by_cases hall : ∀ loc ∈ opt.SnapshotLocations.elems,
          c.getVolumeSnapshotLocation "velero" loc = none
      · have hV : Validate (Complete env opt).2
            = (Outcome.returned none,
                opt.SnapshotLocations.elems.map (Event.getVolumeSnapshotLocation "velero")) := by
          rw [Validate_of_client _ c hc, hlocs]
          exact validateLoop_all_ok c _ hall
        have hR := RunE_validate_ok env pwf opt hcomp (by rw [hV])
        rw [hV] at hR
        rcases checked_Run_events pwf (Complete env opt).2 c hc with hnone | ⟨rest, hrest, h1, h2⟩
        · rw [hR, createCalls_append, createCalls_lookups, hnone] at hcreate
          exact absurd rfl hcreate
        · exact ⟨c, rfl, hc, hall, rest, by rw [hR, hrest], h1, h2⟩
      · obtain ⟨e, _, _, hno⟩ := hstop c hcomp hc hall
        exact absurd hno hcreate

theorem RunE_validates_before_create_witness :
    ((RunE sampleEnv noFormat
        { nightlyOpt with SnapshotLocations := Slice.mk ["a", "missing", "b"] }).1
        = Termination.exited ∧
      createCalls (RunE sampleEnv noFormat
        { nightlyOpt with SnapshotLocations := Slice.mk ["a", "missing", "b"] }).2 = []) ∧
    lookupCalls (RunE sampleEnv noFormat
        { nightlyOpt with SnapshotLocations := Slice.mk ["a", "missing", "b"] }).2
      = [("velero", "a"), ("velero", "missing")] :=
  ⟨⟨((RunE_validates_before_create sampleEnv noFormat
        { nightlyOpt with SnapshotLocations := Slice.mk ["a", "missing", "b"] }).2.1
        sampleClient rfl rfl ⟨"missing", by decide, by decide⟩).1,
    ((RunE_validates_before_create sampleEnv noFormat
        { nightlyOpt with SnapshotLocations := Slice.mk ["a", "missing", "b"] }).2.1
        sampleClient rfl rfl ⟨"missing", by decide, by decide⟩).2.1⟩,
    by decide⟩

end VeleroBackup
